import Mathlib

/-
Shallow embedding of the CML (Condition Monitoring Location) optimization
repository, centred on `app/utils.py` (inspection-schedule calculator,
dataframe validation, SME-override persistence) and `app/schemas.py`
(pydantic validation of SME override submissions) together with the
`/sme-override` endpoint of `app/main_enhanced.py`.

Python float arithmetic is modelled over ℚ; all concrete values appearing
in the claims are decimal and the modelled comparisons are far from any
binary-rounding boundary.  Python `int(x)` (truncation toward zero) and
`round(x, n)` (round-half-to-even) are modelled explicitly below.
`datetime.now()` is nondeterministic, so the absolute
`next_inspection_date` is represented by its deterministic part, the
day offset added to "now".
-/

/-- Python `int(x)`: truncation toward zero. -/
def pyInt (q : ℚ) : ℤ := if 0 ≤ q then ⌊q⌋ else ⌈q⌉

/-- Python `round(s_inverse_scaled)`: round `q` to the nearest multiple of
`1 / s` (so `s = 10` models `round(x, 1)` and `s = 100` models
`round(x, 2)`), ties going to the even scaled integer, as CPython does. -/
def pyRoundScaled (s q : ℚ) : ℚ :=
  let y := s * q
  let f : ℤ := ⌊y⌋
  let r : ℤ :=
    if y - f < 1 / 2 then f
    else if 1 / 2 < y - f then f + 1
    else if f % 2 = 0 then f else f + 1
  (r : ℚ) / s

/-- Python `round(x, 1)`. -/
def pyRound1 (q : ℚ) : ℚ := pyRoundScaled 10 q

/-- Python `round(x, 2)`. -/
def pyRound2 (q : ℚ) : ℚ := pyRoundScaled 100 q

/-- `app/utils.py` lines 107-112: the remaining-life computation inside
`calculate_inspection_schedule`.  `available_thickness = thickness -
min_thickness`; `if corrosion_rate <= 0: remaining_life_years = 50.0`
else `available_thickness / corrosion_rate`.  Note: the source applies no
clamp to the quotient. -/
def remainingLifeYears (corrosion_rate thickness min_thickness : ℚ) : ℚ :=
  let available_thickness := thickness - min_thickness
  if corrosion_rate ≤ 0 then 50 else available_thickness / corrosion_rate

/-- `app/utils.py` lines 114-118: `inspection_interval_years =
remaining_life_years / safety_factor`, then
`max(1, min(inspection_interval_years, 6))`. -/
def inspectionIntervalYears (remaining_life_years safety_factor : ℚ) : ℚ :=
  let y := remaining_life_years / safety_factor
  max 1 (min y 6)

/-- `app/utils.py` lines 124-131: the risk-classification ladder on the
(unrounded) remaining life. -/
def riskLevel (remaining_life_years : ℚ) : String :=
  if remaining_life_years < 2 then "CRITICAL"
  else if remaining_life_years < 5 then "HIGH"
  else if remaining_life_years < 10 then "MEDIUM"
  else "LOW"

/-- The dictionary returned by `calculate_inspection_schedule`
(`app/utils.py` lines 133-141).  `next_inspection_date` is
`datetime.now() + timedelta(days=int(inspection_interval_years * 365))`;
only its deterministic day offset is modelled. -/
structure InspectionSchedule where
  remaining_life_years : ℚ
  inspection_interval_months : ℤ
  next_inspection_offset_days : ℤ
  risk_level : String
  estimated_thickness_at_next_inspection : ℚ
deriving Repr, DecidableEq

/-- `app/utils.py` lines 100-141, `calculate_inspection_schedule`.
The Python defaults are `min_thickness = 3.0`, `safety_factor = 1.5`;
here they are passed explicitly. -/
def calculate_inspection_schedule (corrosion_rate thickness min_thickness
    safety_factor : ℚ) : InspectionSchedule :=
  let remaining_life_years := remainingLifeYears corrosion_rate thickness min_thickness
  let inspection_interval_years := inspectionIntervalYears remaining_life_years safety_factor
  { remaining_life_years := pyRound1 remaining_life_years
    inspection_interval_months := pyInt (inspection_interval_years * 12)
    next_inspection_offset_days := pyInt (inspection_interval_years * 365)
    risk_level := riskLevel remaining_life_years
    estimated_thickness_at_next_inspection :=
      pyRound2 (thickness - corrosion_rate * inspection_interval_years) }

/-- One row of a CML dataframe: the six columns that
`validate_cml_dataframe` reads. -/
structure CMLRow where
  id_number : String
  average_corrosion_rate : ℚ
  thickness_mm : ℚ
  commodity : String
  feature_type : String
  cml_shape : String
deriving Repr, DecidableEq

/-- A pandas dataframe as `validate_cml_dataframe` sees it: its column
labels plus its rows.  A column access `df[c]` in the source is only
reached after the required-column check, so `rows` carries exactly the six
required columns. -/
structure CMLDataFrame where
  columns : List String
  rows : List CMLRow
deriving Repr, DecidableEq

/-- `app/utils.py` lines 12-15: `required_columns`. -/
def required_columns : List String :=
  ["id_number", "average_corrosion_rate", "thickness_mm",
   "commodity", "feature_type", "cml_shape"]

/-- Pandas `Series.duplicated()`: the subsequent occurrences of values seen
earlier, in order, with `seen` the values already scanned. -/
def duplicatedIdsAux : List String → List String → List String
  | _, [] => []
  | seen, x :: xs =>
    if x ∈ seen then x :: duplicatedIdsAux (x :: seen) xs
    else duplicatedIdsAux (x :: seen) xs

/-- `df[df['id_number'].duplicated()]['id_number'].tolist()`. -/
def duplicatedIds (ids : List String) : List String := duplicatedIdsAux [] ids

/-- The `stats` dictionary of `validate_cml_dataframe` (`app/utils.py`
lines 54-61).  The two means are `sum / count`; on an empty frame pandas
yields NaN where this ℚ model yields 0 (the claims never read `stats`).
The `value_counts` dictionaries are modelled as count functions. -/
structure ValidationStats where
  total_records : ℕ
  unique_cmls : ℕ
  avg_corrosion_rate : ℚ
  avg_thickness : ℚ
  commodity_distribution : String → ℕ
  feature_type_distribution : String → ℕ

/-- The dictionary returned by `validate_cml_dataframe`: `stats` starts out
as the empty dict and is only filled on the non-early-return path, hence
`Option`. -/
structure ValidationResults where
  valid : Bool
  errors : List String
  warnings : List String
  stats : Option ValidationStats

/-- `app/utils.py` lines 10-63, `validate_cml_dataframe`.  The interpolated
payloads of the messages keep Lean list formatting rather than the exact
CPython `set`/`list` repr; branch structure, message order and the
`valid`/`errors`/`warnings` classification follow the source. -/
def validate_cml_dataframe (df : CMLDataFrame) : ValidationResults :=
  let missing_cols := required_columns.filter (fun c => ¬ c ∈ df.columns)
  if missing_cols.isEmpty then
    let dups := duplicatedIds (df.rows.map CMLRow.id_number)
    let dup_warnings :=
      if dups.isEmpty then []
      else
        let shown := dups.take 5
        [s!"Duplicate CML IDs found: {shown}"]
    let invalid_corr := df.rows.filter (fun r =>
      decide (r.average_corrosion_rate < 0) || decide (5 < r.average_corrosion_rate))
    let corr_warnings :=
      if invalid_corr.length > 0 then
        let n := invalid_corr.length
        [s!"{n} records with unusual corrosion rates (expected 0-5 mm/year)"]
      else []
    let invalid_thick := df.rows.filter (fun r =>
      decide (r.thickness_mm ≤ 0) || decide (50 < r.thickness_mm))
    let thick_warnings :=
      if invalid_thick.length > 0 then
        let m := invalid_thick.length
        [s!"{m} records with unusual thickness (expected 0-50 mm)"]
      else []
    { valid := true
      errors := []
      warnings := dup_warnings ++ corr_warnings ++ thick_warnings
      stats := some
        { total_records := df.rows.length
          unique_cmls := (df.rows.map CMLRow.id_number).dedup.length
          avg_corrosion_rate :=
            (df.rows.map CMLRow.average_corrosion_rate).sum / df.rows.length
          avg_thickness :=
            (df.rows.map CMLRow.thickness_mm).sum / df.rows.length
          commodity_distribution := fun c => (df.rows.map CMLRow.commodity).count c
          feature_type_distribution := fun t => (df.rows.map CMLRow.feature_type).count t } }
  else
    { valid := false
      errors := [s!"Missing required columns: {missing_cols}"]
      warnings := []
      stats := none }

/-- A Python `datetime` value, abstracted by its ISO-8601 rendering. -/
structure DateTimeVal where
  iso : String
deriving Repr, DecidableEq

/-- `datetime.isoformat()`. -/
def isoformat (d : DateTimeVal) : String := d.iso

/-- The `override_date` entry of an override dict: either still a
`datetime` object or already an ISO string (as stored on disk). -/
inductive DateField where
  | dt : DateTimeVal → DateField
  | str : String → DateField
deriving Repr, DecidableEq

/-- An SME override record, the dict shape produced by
`SMEOverride.model_dump()` (`app/schemas.py` lines 84-92) and stored by
`save_sme_override`. -/
structure OverrideData where
  id_number : String
  sme_decision : String
  reason : String
  sme_name : String
  override_date : Option DateField
  original_prediction : Option String
  original_probability : Option ℚ
deriving Repr, DecidableEq

/-- The JSON override file: `none` when the file does not exist, otherwise
the list of records it holds. -/
def OverrideFile : Type := Option (List OverrideData)

/-- `app/utils.py` lines 76-82, `load_sme_overrides`: a missing file reads
as the empty list. -/
def load_sme_overrides (f : OverrideFile) : List OverrideData :=
  match f with
  | none => []
  | some overrides => overrides

/-- `app/utils.py` lines 89-91: the datetime-to-string normalisation
applied to `override_data` before it is appended. -/
def normalizeOverrideDate (o : OverrideData) : OverrideData :=
  match o.override_date with
  | some (DateField.dt d) => { o with override_date := some (DateField.str (isoformat d)) }
  | _ => o

/-- `app/utils.py` lines 85-97, `save_sme_override`: load the current
list, normalise the date, append, write the whole list back. -/
def save_sme_override (o : OverrideData) (f : OverrideFile) : OverrideFile :=
  let overrides := load_sme_overrides f
  some (overrides ++ [normalizeOverrideDate o])

/-- `save_sme_override` applied in sequence to a list of payloads. -/
def saveAllOverrides (os : List OverrideData) (f : OverrideFile) : OverrideFile :=
  os.foldl (fun acc o => save_sme_override o acc) f

/-- The raw fields of a `/sme-override` request body, before pydantic
validation (`override_date` is filled by `default_factory=datetime.now`,
passed here explicitly as `now`). -/
structure RawSMEOverride where
  id_number : String
  sme_decision : String
  reason : String
  sme_name : String
  original_prediction : Option String
  original_probability : Option ℚ
deriving Repr, DecidableEq

/-- Pydantic validation of the `SMEOverride` model (`app/schemas.py` lines
84-92): `sme_decision` must match `^(KEEP|ELIMINATE)$` and `reason` must
have `min_length=10`; all field errors are collected.  On success the
record carries `override_date = now` from the default factory. -/
def parseSMEOverride (now : DateTimeVal) (raw : RawSMEOverride) :
    Except (List String) OverrideData :=
  let decision_errors :=
    if raw.sme_decision = "KEEP" ∨ raw.sme_decision = "ELIMINATE" then []
    else ["sme_decision: string should match pattern KEEP or ELIMINATE"]
  let reason_errors :=
    if 10 ≤ raw.reason.length then []
    else ["reason: string should have at least 10 characters"]
  let errors := decision_errors ++ reason_errors
  if errors.isEmpty then
    Except.ok
      { id_number := raw.id_number
        sme_decision := raw.sme_decision
        reason := raw.reason
        sme_name := raw.sme_name
        override_date := some (DateField.dt now)
        original_prediction := raw.original_prediction
        original_probability := raw.original_probability }
  else Except.error errors

/-- Modelled from the spec: `SMEOverrideManager.add_override`
(`app/sme_override.py` is not in the source tree; only its callers and the
persistence helpers of `app/utils.py` are).  Spec 4.3: "Appends to
persistent storage; never overwrites or deletes prior entries for the same
id" — realised here by `save_sme_override`, and the created record is
returned. -/
def smeManagerAddOverride (o : OverrideData) (f : OverrideFile) :
    OverrideData × OverrideFile :=
  (o, save_sme_override o f)

/-- The `/sme-override` endpoint (`app/main_enhanced.py` lines 185-198):
FastAPI first validates the body against the `SMEOverride` schema; a
validation failure is answered with a 422 error before the handler runs,
so the store is untouched; otherwise the handler calls
`sme_manager.add_override`. -/
def add_sme_override (now : DateTimeVal) (raw : RawSMEOverride)
    (f : OverrideFile) : Except (List String) OverrideData × OverrideFile :=
  match parseSMEOverride now raw with
  | Except.error es => (Except.error es, f)
  | Except.ok o =>
    let r := smeManagerAddOverride o f
    (Except.ok r.1, r.2)

lemma riskLadder_characterization (r : ℚ) :
    (riskLevel r = "CRITICAL" ↔ r < 2) ∧ (riskLevel r = "HIGH" ↔ 2 ≤ r ∧ r < 5) ∧
    (riskLevel r = "MEDIUM" ↔ 5 ≤ r ∧ r < 10) ∧ (riskLevel r = "LOW" ↔ 10 ≤ r) := by
  unfold riskLevel
  split_ifs with h1 h2 h3 <;>
    refine ⟨?_, ?_, ?_, ?_⟩ <;> simp <;> intros <;>
      first
        | linarith
        | (push_neg at *; constructor <;> linarith)

/-- C1: the claim asserts the remaining life is `(thickness - min_thickness)
/ corrosion_rate` clamped to `[0, 50.0]`, with the clamp hit at
`(thickness=10.0, corrosion_rate=0.10, min_thickness=3.0)`.  The source
applies no clamp: at that input `calculate_inspection_schedule` reports
`remaining_life_years = 70.0`, and with `thickness = 2 < min_thickness = 3`
at rate `1` it reports `-1.0`. -/
theorem c1_remaining_life_not_clamped :
    remainingLifeYears (1 / 10) 10 3 = 70 ∧
    (calculate_inspection_schedule (1 / 10) 10 3 (3 / 2)).remaining_life_years = 70 ∧
    remainingLifeYears 1 2 3 = -1 ∧
    (calculate_inspection_schedule 1 2 3 (3 / 2)).remaining_life_years = -1 := by
  refine ⟨?_, ?_, ?_, ?_⟩ <;>
    norm_num [remainingLifeYears, calculate_inspection_schedule, pyRound1, pyRoundScaled]

/-- C2: the risk level of `calculate_inspection_schedule` is the strict
`<`-threshold ladder on the (unrounded) remaining life: below 2 CRITICAL,
then below 5 HIGH, then below 10 MEDIUM, else LOW; at remaining life 2.0
the ladder yields HIGH and at 1.999 it yields CRITICAL. -/
theorem c2_risk_ladder :
    (∀ cr t mt sf : ℚ,
      ((calculate_inspection_schedule cr t mt sf).risk_level = "CRITICAL" ↔
        remainingLifeYears cr t mt < 2) ∧
      ((calculate_inspection_schedule cr t mt sf).risk_level = "HIGH" ↔
        2 ≤ remainingLifeYears cr t mt ∧ remainingLifeYears cr t mt < 5) ∧
      ((calculate_inspection_schedule cr t mt sf).risk_level = "MEDIUM" ↔
        5 ≤ remainingLifeYears cr t mt ∧ remainingLifeYears cr t mt < 10) ∧
      ((calculate_inspection_schedule cr t mt sf).risk_level = "LOW" ↔
        10 ≤ remainingLifeYears cr t mt)) ∧
    riskLevel 2 = "HIGH" ∧ riskLevel (1999 / 1000) = "CRITICAL" := by
  refine ⟨fun cr t mt sf => ?_, by norm_num [riskLevel], by norm_num [riskLevel]⟩
  have hproj : (calculate_inspection_schedule cr t mt sf).risk_level =
      riskLevel (remainingLifeYears cr t mt) := rfl
  simp only [hproj]
  exact riskLadder_characterization (remainingLifeYears cr t mt)

/-- C3: the claim asserts remaining life and inspection interval are
non-increasing in the corrosion rate over `[0, ∞)`.  The source violates
both: with thickness 10 and min_thickness 3, the remaining life jumps from
50.0 at rate 0 up to 70.0 at rate 0.1 (the `[0, 50]` clamp is missing),
and with safety factor 100 the inspection interval grows from 12 months at
rate 0 to 72 months at rate 0.01. -/
theorem c3_monotonicity_violated :
    (0 : ℚ) ≤ 1 / 10 ∧
    remainingLifeYears 0 10 3 < remainingLifeYears (1 / 10) 10 3 ∧
    (0 : ℚ) ≤ 1 / 100 ∧
    (calculate_inspection_schedule 0 10 3 100).inspection_interval_months <
      (calculate_inspection_schedule (1 / 100) 10 3 100).inspection_interval_months := by
  refine ⟨by norm_num, ?_, by norm_num, ?_⟩ <;>
    norm_num [remainingLifeYears, calculate_inspection_schedule,
      inspectionIntervalYears, pyInt]

/-- C4: a corrosion rate equal to 0 always yields remaining life exactly
50.0, independently of thickness and min_thickness; in particular at
`(thickness=10.0, corrosion_rate=0.0, min_thickness=3.0)`. -/
theorem c4_zero_corrosion_max_life :
    (∀ t mt : ℚ, remainingLifeYears 0 t mt = 50) ∧
    remainingLifeYears 0 10 3 = 50 ∧
    (calculate_inspection_schedule 0 10 3 (3 / 2)).remaining_life_years = 50 := by
  refine ⟨fun t mt => ?_, ?_, ?_⟩ <;>
    norm_num [remainingLifeYears, calculate_inspection_schedule, pyRound1, pyRoundScaled]

/-- C5: for a positive safety factor, the reported inspection interval is
the remaining life divided by the safety factor, clamped as a years value
to `[1, 6]` and then converted to months by `int(years * 12)`; the
resulting months always lie in `[12, 72]`. -/
theorem c5_interval_formula_and_bounds :
    ∀ cr t mt sf : ℚ, 0 < sf →
      (calculate_inspection_schedule cr t mt sf).inspection_interval_months =
        pyInt (max 1 (min (remainingLifeYears cr t mt / sf) 6) * 12) ∧
      12 ≤ (calculate_inspection_schedule cr t mt sf).inspection_interval_months ∧
      (calculate_inspection_schedule cr t mt sf).inspection_interval_months ≤ 72 := by
  intro cr t mt sf _
  have hproj : (calculate_inspection_schedule cr t mt sf).inspection_interval_months =
      pyInt (max 1 (min (remainingLifeYears cr t mt / sf) 6) * 12) := rfl
  set y : ℚ := max 1 (min (remainingLifeYears cr t mt / sf) 6) with hy
  have h1 : 1 ≤ y := le_max_left 1 _
  have h6 : y ≤ 6 := max_le (by norm_num) (min_le_right _ 6)
  have h0 : (0 : ℚ) ≤ y * 12 := by nlinarith
  have hfloor : pyInt (y * 12) = ⌊y * 12⌋ := by unfold pyInt; rw [if_pos h0]
  refine ⟨hproj, ?_, ?_⟩
  · rw [hproj, hfloor, Int.le_floor]
    push_cast
    linarith
  · rw [hproj, hfloor]
    calc ⌊y * 12⌋ ≤ ⌊(72 : ℚ)⌋ := Int.floor_le_floor (by linarith)
      _ = 72 := by norm_num

/-- C5 witness: at `(corrosion_rate=0.1, thickness=10, min_thickness=3,
safety_factor=1.5)` the hypothesis holds and the interval is 72 months,
inside `[12, 72]`. -/
theorem c5_witness :
    (0 : ℚ) < 3 / 2 ∧
    (calculate_inspection_schedule (1 / 10) 10 3 (3 / 2)).inspection_interval_months =
      pyInt (max 1 (min (remainingLifeYears (1 / 10) 10 3 / (3 / 2)) 6) * 12) ∧
    12 ≤ (calculate_inspection_schedule (1 / 10) 10 3 (3 / 2)).inspection_interval_months ∧
    (calculate_inspection_schedule (1 / 10) 10 3 (3 / 2)).inspection_interval_months ≤ 72 := by
  have h := c5_interval_formula_and_bounds (1 / 10) 10 3 (3 / 2) (by norm_num)
  exact ⟨by norm_num, h.1, h.2.1, h.2.2⟩

/-- C6 counterexample: the claim asserts a negative corrosion rate is
rejected with an error; instead `calculate_inspection_schedule` at
`corrosion_rate = -1` silently takes the `corrosion_rate <= 0` branch and
returns the zero-corrosion remaining life 50.0. -/
theorem c6_negative_rate_not_rejected :
    remainingLifeYears (-1) 10 3 = 50 ∧
    remainingLifeYears (-1) 10 3 = remainingLifeYears 0 10 3 ∧
    (calculate_inspection_schedule (-1) 10 3 (3 / 2)).remaining_life_years = 50 := by
  refine ⟨?_, ?_, ?_⟩ <;>
    norm_num [remainingLifeYears, calculate_inspection_schedule, pyRound1, pyRoundScaled]

/-- C6 amended: every corrosion rate at or below zero (negative included)
is silently treated like zero corrosion by the remaining-life computation,
which returns 50.0; no error is raised. -/
theorem c6_amended_nonpositive_coerced_to_zero :
    ∀ cr t mt : ℚ, cr ≤ 0 →
      remainingLifeYears cr t mt = 50 ∧
      remainingLifeYears cr t mt = remainingLifeYears 0 t mt := by
  intro cr t mt h
  unfold remainingLifeYears
  rw [if_pos h, if_pos le_rfl]
  exact ⟨rfl, rfl⟩

/-- C6 witness: the amended statement applied at `corrosion_rate = -1`,
`thickness = 10`, `min_thickness = 3`. -/
theorem c6_witness :
    remainingLifeYears (-1) 10 3 = 50 ∧
    remainingLifeYears (-1) 10 3 = remainingLifeYears 0 10 3 :=
  c6_amended_nonpositive_coerced_to_zero (-1) 10 3 (by norm_num)

/-- C9: the reported `remaining_life_years` is the remaining life rounded
to one decimal while `risk_level` is classified from the unrounded value;
at `(thickness=9.86, corrosion_rate=3.5, min_thickness=3.0)` the unrounded
remaining life is 1.96, so the result reports remaining life 2.0 together
with risk CRITICAL even though the ladder sends 2.0 to HIGH. -/
theorem c9_rounding_risk_mismatch :
    (∀ cr t mt sf : ℚ,
      (calculate_inspection_schedule cr t mt sf).remaining_life_years =
        pyRound1 (remainingLifeYears cr t mt) ∧
      (calculate_inspection_schedule cr t mt sf).risk_level =
        riskLevel (remainingLifeYears cr t mt)) ∧
    remainingLifeYears (7 / 2) (493 / 50) 3 = 49 / 25 ∧
    (calculate_inspection_schedule (7 / 2) (493 / 50) 3 (3 / 2)).remaining_life_years = 2 ∧
    (calculate_inspection_schedule (7 / 2) (493 / 50) 3 (3 / 2)).risk_level = "CRITICAL" ∧
    riskLevel 2 = "HIGH" := by
  refine ⟨fun cr t mt sf => ⟨rfl, rfl⟩, ?_, ?_, ?_, ?_⟩ <;>
    norm_num [remainingLifeYears, calculate_inspection_schedule, riskLevel,
      pyRound1, pyRoundScaled]

/-- C7: a `/sme-override` submission whose decision is outside
`{KEEP, ELIMINATE}` or whose reason is shorter than 10 characters fails
pydantic validation with a validation error, and the override store is
left exactly as it was (no partial write). -/
theorem c7_invalid_override_rejected_without_write :
    ∀ (now : DateTimeVal) (raw : RawSMEOverride) (f : OverrideFile),
      (¬(raw.sme_decision = "KEEP" ∨ raw.sme_decision = "ELIMINATE") ∨
        raw.reason.length < 10) →
      (∃ es, (add_sme_override now raw f).1 = Except.error es) ∧
      (add_sme_override now raw f).2 = f := by
  intro now raw f h
  by_cases hd : raw.sme_decision = "KEEP" ∨ raw.sme_decision = "ELIMINATE" <;>
    by_cases hr : 10 ≤ raw.reason.length
  · rcases h with h | h
    · exact absurd hd h
    · omega
  · exact ⟨⟨["reason: string should have at least 10 characters"],
        by simp [add_sme_override, parseSMEOverride, hd, hr]⟩,
      by simp [add_sme_override, parseSMEOverride, hd, hr]⟩
  · exact ⟨⟨["sme_decision: string should match pattern KEEP or ELIMINATE"],
        by simp [add_sme_override, parseSMEOverride, hd, hr]⟩,
      by simp [add_sme_override, parseSMEOverride, hd, hr]⟩
  · exact ⟨⟨["sme_decision: string should match pattern KEEP or ELIMINATE",
        "reason: string should have at least 10 characters"],
        by simp [add_sme_override, parseSMEOverride, hd, hr]⟩,
      by simp [add_sme_override, parseSMEOverride, hd, hr]⟩

/-- A syntactically well-formed override request with the out-of-set
decision "MAYBE" (spec example). -/
def rawMaybe : RawSMEOverride :=
  { id_number := "CML-001"
    sme_decision := "MAYBE"
    reason := "a sufficiently long reason"
    sme_name := "Dr. John Smith"
    original_prediction := none
    original_probability := none }

/-- An override request whose reason "too short" has only 9 characters
(spec example). -/
def rawShortReason : RawSMEOverride :=
  { id_number := "CML-001"
    sme_decision := "KEEP"
    reason := "too short"
    sme_name := "Dr. John Smith"
    original_prediction := none
    original_probability := none }

/-- C7 witness: both spec examples, `decision="MAYBE"` and a 9-character
reason, are rejected against the absent store, which stays absent. -/
theorem c7_witness :
    ((∃ es, (add_sme_override (DateTimeVal.mk "2026-01-01T00:00:00") rawMaybe none).1 =
        Except.error es) ∧
      (add_sme_override (DateTimeVal.mk "2026-01-01T00:00:00") rawMaybe none).2 = none) ∧
    ((∃ es, (add_sme_override (DateTimeVal.mk "2026-01-01T00:00:00") rawShortReason none).1 =
        Except.error es) ∧
      (add_sme_override (DateTimeVal.mk "2026-01-01T00:00:00") rawShortReason none).2 = none) :=
  ⟨c7_invalid_override_rejected_without_write _ rawMaybe none (Or.inl (by decide)),
    c7_invalid_override_rejected_without_write _ rawShortReason none (Or.inr (by decide))⟩

lemma load_saveAllOverrides (os : List OverrideData) (f : OverrideFile) :
    load_sme_overrides (saveAllOverrides os f) =
      load_sme_overrides f ++ os.map normalizeOverrideDate := by
  induction os generalizing f with
  | nil => simp [saveAllOverrides]
  | cons o os ih =>
    have hstep : saveAllOverrides (o :: os) f = saveAllOverrides os (save_sme_override o f) := rfl
    have hsave : load_sme_overrides (save_sme_override o f) =
        load_sme_overrides f ++ [normalizeOverrideDate o] := rfl
    rw [hstep, ih, hsave]
    simp

/-- C8: the override ledger is append-only: one save appends exactly one
(date-normalised) record after the existing contents, and starting from an
empty or absent store, K saves leave exactly the K submitted records in
append order — also when payloads share an `id_number`, since saving never
inspects, overwrites or deletes prior entries. -/
theorem c8_ledger_append_only :
    (∀ (o : OverrideData) (f : OverrideFile),
      load_sme_overrides (save_sme_override o f) =
        load_sme_overrides f ++ [normalizeOverrideDate o]) ∧
    (∀ (os : List OverrideData) (f : OverrideFile),
      load_sme_overrides f = [] →
        load_sme_overrides (saveAllOverrides os f) = os.map normalizeOverrideDate ∧
        (load_sme_overrides (saveAllOverrides os f)).length = os.length) := by
  refine ⟨fun o f => rfl, fun os f h => ?_⟩
  have hall := load_saveAllOverrides os f
  rw [h] at hall
  simp at hall
  exact ⟨hall, by rw [hall]; simp⟩

/-- A stored override decision for CML-042 (date already serialised). -/
def ovKeep : OverrideData :=
  { id_number := "CML-042"
    sme_decision := "KEEP"
    reason := "Critical monitoring point for a high-risk area"
    sme_name := "Reviewer One"
    override_date := some (DateField.str "2026-01-01T00:00:00")
    original_prediction := some "ELIMINATE"
    original_probability := some (17 / 20) }

/-- A second override for the same `id_number` CML-042. -/
def ovEliminate : OverrideData :=
  { id_number := "CML-042"
    sme_decision := "ELIMINATE"
    reason := "Superseding decision after the follow-up review"
    sme_name := "Reviewer Two"
    override_date := some (DateField.str "2026-02-01T00:00:00")
    original_prediction := some "ELIMINATE"
    original_probability := some (17 / 20) }

/-- C8 witness: saving two overrides with the same `id_number` into an
absent store leaves exactly those two records, in order. -/
theorem c8_witness :
    load_sme_overrides (saveAllOverrides [ovKeep, ovEliminate] none) = [ovKeep, ovEliminate] ∧
    (load_sme_overrides (saveAllOverrides [ovKeep, ovEliminate] none)).length = 2 := by
  have h := c8_ledger_append_only.2 [ovKeep, ovEliminate] none rfl
  refine ⟨?_, h.2⟩
  rw [h.1]
  rfl

/-- The duplicated `id_number` values of a frame, as the duplicates check
of `validate_cml_dataframe` computes them. -/
def dupIdsOf (df : CMLDataFrame) : List String :=
  duplicatedIds (df.rows.map CMLRow.id_number)

/-- The duplicate-ids warning message of `validate_cml_dataframe`. -/
def dupWarning (df : CMLDataFrame) : String :=
  let shown := (dupIdsOf df).take 5
  s!"Duplicate CML IDs found: {shown}"

/-- The rows whose corrosion rate is outside `[0, 5]`, as the range check
of `validate_cml_dataframe` computes them. -/
def invalidCorrRows (df : CMLDataFrame) : List CMLRow :=
  df.rows.filter (fun r =>
    decide (r.average_corrosion_rate < 0) || decide (5 < r.average_corrosion_rate))

/-- The corrosion-rate warning message of `validate_cml_dataframe`. -/
def corrWarning (df : CMLDataFrame) : String :=
  let n := (invalidCorrRows df).length
  s!"{n} records with unusual corrosion rates (expected 0-5 mm/year)"

/-- The rows whose thickness is outside `(0, 50]`, as the range check of
`validate_cml_dataframe` computes them. -/
def invalidThickRows (df : CMLDataFrame) : List CMLRow :=
  df.rows.filter (fun r =>
    decide (r.thickness_mm ≤ 0) || decide (50 < r.thickness_mm))

/-- The thickness warning message of `validate_cml_dataframe`. -/
def thickWarning (df : CMLDataFrame) : String :=
  let m := (invalidThickRows df).length
  s!"{m} records with unusual thickness (expected 0-50 mm)"

/-- C10: `validate_cml_dataframe` reports `valid = false` exactly when one
of the six required columns is missing; with all of them present it
reports `valid = true` with an empty error list, and its warning list is
exactly the three conditional anomaly messages: duplicate ids,
out-of-range corrosion rates and out-of-range thicknesses are each
reported in `warnings` whenever they occur — never as errors. -/
theorem c10_valid_iff_required_columns_present :
    ∀ df : CMLDataFrame,
      ((validate_cml_dataframe df).valid = false ↔
        ∃ c ∈ required_columns, ¬ c ∈ df.columns) ∧
      ((∀ c ∈ required_columns, c ∈ df.columns) →
        (validate_cml_dataframe df).valid = true ∧
        (validate_cml_dataframe df).errors = [] ∧
        (validate_cml_dataframe df).warnings =
          (if (dupIdsOf df).isEmpty then [] else [dupWarning df]) ++
          (if 0 < (invalidCorrRows df).length then [corrWarning df] else []) ++
          (if 0 < (invalidThickRows df).length then [thickWarning df] else []) ∧
        (¬ dupIdsOf df = [] →
          dupWarning df ∈ (validate_cml_dataframe df).warnings) ∧
        (¬ (invalidCorrRows df).length = 0 →
          corrWarning df ∈ (validate_cml_dataframe df).warnings) ∧
        (¬ (invalidThickRows df).length = 0 →
          thickWarning df ∈ (validate_cml_dataframe df).warnings)) := by
  intro df
  by_cases h : (required_columns.filter (fun c => ¬ c ∈ df.columns)).isEmpty
  · have hall : ∀ c ∈ required_columns, c ∈ df.columns := by
      rw [List.isEmpty_iff] at h
      simpa using h
    have hw : (validate_cml_dataframe df).warnings =
        (if (dupIdsOf df).isEmpty then [] else [dupWarning df]) ++
        (if 0 < (invalidCorrRows df).length then [corrWarning df] else []) ++
        (if 0 < (invalidThickRows df).length then [thickWarning df] else []) := by
      rw [validate_cml_dataframe, if_pos h]
      rfl
    constructor
    · rw [validate_cml_dataframe, if_pos h]
      simp only [Bool.true_eq_false, false_iff]
      push_neg
      simpa using hall
    · intro _
      refine ⟨by rw [validate_cml_dataframe, if_pos h],
        by rw [validate_cml_dataframe, if_pos h], hw, ?_, ?_, ?_⟩
      · intro hne
        rw [hw, if_neg (fun hh => hne (List.isEmpty_iff.mp hh))]
        simp
      · intro hne
        rw [hw, if_pos (Nat.pos_of_ne_zero hne)]
        simp
      · intro hne
        rw [hw, if_pos (Nat.pos_of_ne_zero hne)]
        simp
  · have hsome : ∃ c ∈ required_columns, ¬ c ∈ df.columns := by
      rw [List.isEmpty_iff] at h
      rcases List.exists_mem_of_ne_nil _ h with ⟨c, hc⟩
      have := List.of_mem_filter hc
      exact ⟨c, List.mem_of_mem_filter hc, by simpa using this⟩
    constructor
    · rw [validate_cml_dataframe, if_neg h]
      simpa using hsome
    · intro hall
      rcases hsome with ⟨c, hc, hnot⟩
      exact absurd (hall c hc) hnot

/-- A dataframe with every required column present holding all three
anomalies: a duplicated id, a corrosion rate above 5 and a thickness
above 50. -/
def dfComplete : CMLDataFrame :=
  { columns := required_columns
    rows :=
      [{ id_number := "CML-001"
         average_corrosion_rate := 6
         thickness_mm := 60
         commodity := "Crude Oil"
         feature_type := "Pipe"
         cml_shape := "Both" },
       { id_number := "CML-001"
         average_corrosion_rate := 0
         thickness_mm := 9
         commodity := "Crude Oil"
         feature_type := "Elbow"
         cml_shape := "Internal" }] }

/-- C10 witness: with all required columns present, a frame holding a
duplicate id, a corrosion rate above 5 and a thickness above 50 validates
with `valid = true` and no errors, and each of the three anomaly messages
appears in `warnings`. -/
theorem c10_witness :
    (validate_cml_dataframe dfComplete).valid = true ∧
    (validate_cml_dataframe dfComplete).errors = [] ∧
    dupWarning dfComplete ∈ (validate_cml_dataframe dfComplete).warnings ∧
    corrWarning dfComplete ∈ (validate_cml_dataframe dfComplete).warnings ∧
    thickWarning dfComplete ∈ (validate_cml_dataframe dfComplete).warnings :=
  have h := (c10_valid_iff_required_columns_present dfComplete).2 (by decide)
  ⟨h.1, h.2.1, h.2.2.2.1 (by decide), h.2.2.2.2.1 (by decide), h.2.2.2.2.2 (by decide)⟩
